import Mathlib

/-!
Shallow embedding of the Proof Insight web client workflow
(src/src/App.jsx, plain and styled variants).

The React component state is modelled as a record of the useState slots.
Each event handler becomes a pure function from the current state plus the
outcomes of its external calls (hashing, wallet, fetch) to the next state,
together with effect flags recording whether the handler reached its
external side effects: whether the wallet was contacted, whether a fetch
to the registration service was issued, and whether the Turnstile widget
was reset.  Because JavaScript treats the empty string as falsy, the
guards of the handlers are modelled as equality tests against the empty
string.
-/

namespace ProofInsight

/-- Body of a successful POST response from the registration service. -/
structure RegisterRecord where
  txHash : String
  blockNumber : Nat
deriving DecidableEq

/-- Body of a successful GET (lookup) response from the registration service. -/
structure LookupRecord where
  found : Bool
  owner : Option String
  timestamp : Option Nat
deriving DecidableEq

/-- The useState slots of the App component (plain variant):
hash, sig, userAddr, status, turnstileToken, registerResult, verifyResult. -/
structure Session where
  hash : String
  sig : String
  userAddr : String
  status : String
  turnstileToken : String
  registerResult : Option RegisterRecord
  verifyResult : Option LookupRecord
deriving DecidableEq

/-- The useState slots of the styled variant: the same seven slots plus
selectedFileName and dragActive. -/
structure StyledSession where
  hash : String
  sig : String
  userAddr : String
  status : String
  turnstileToken : String
  registerResult : Option RegisterRecord
  verifyResult : Option LookupRecord
  selectedFileName : String
  dragActive : Bool
deriving DecidableEq

/-- JavaScript `a || b` on the error field of a JSON body: `body.error`
is used when present and truthy (non-empty), otherwise `res.statusText`. -/
def jsOr (a : Option String) (b : String) : String :=
  match a with
  | some e => if e = "" then b else e
  | none => b

/-- buildSignedMessage from App.jsx: the canonical message signed by the
wallet, a fixed template with the file hash embedded verbatim. -/
def buildSignedMessage (fileHashHex : String) : String :=
  "Proof Insight: register file hash " ++ fileHashHex

/-- onFileChange (plain variant).  `fileSelected` records whether
`e.target.files?.[0]` produced a file; `hashOutcome` is the result of the
awaited sha256Hex call (the new digest, or the thrown error message).
The handler first clears hash, sig, status, registerResult and
verifyResult, then, when a file is present, either stores the new digest
or narrates the hashing error.  It never touches userAddr or
turnstileToken. -/
def onFileChange (s : Session) (fileSelected : Bool)
    (hashOutcome : Except String String) : Session :=
  let s1 : Session := { s with hash := "", sig := "", status := "",
                               registerResult := none, verifyResult := none }
  if fileSelected then
    match hashOutcome with
    | Except.ok h => { s1 with hash := h, status := "Ready to sign" }
    | Except.error m => { s1 with status := "Error: " ++ m }
  else s1

/-- onFileChange (styled variant): identical to the plain variant except
that it additionally sets selectedFileName from the chosen file name. -/
def onFileChangeStyled (t : StyledSession) (fileName : Option String)
    (hashOutcome : Except String String) : StyledSession :=
  let t1 : StyledSession :=
    { t with selectedFileName := (match fileName with | some n => n | none => ""),
             hash := "", sig := "", status := "",
             registerResult := none, verifyResult := none }
  match fileName with
  | some _ =>
    (match hashOutcome with
     | Except.ok h => { t1 with hash := h, status := "Ready to sign" }
     | Except.error m => { t1 with status := "Error: " ++ m })
  | none => t1

/-- Outcome of the wallet interaction inside the try block of onSign:
either the connect phase (eth_requestAccounts / getSigner / getAddress)
throws, or the address is obtained and signMessage throws, or both
succeed. -/
inductive SignOutcome where
  | connectError (msg : String)
  | rejectAfterConnect (addr : String) (msg : String)
  | success (addr : String) (signature : String)
deriving DecidableEq

/-- Result of the onSign handler: the next state, plus whether the
wallet was contacted (the code inside the try block ran at all). -/
structure SignEff where
  state : Session
  walletContacted : Bool
deriving DecidableEq

/-- onSign from App.jsx.  Guards: empty hash, then a missing
window.ethereum; otherwise the wallet is contacted.  Note that
setUserAddr(address) runs before signMessage, so a failure of
signMessage still stores the connected address. -/
def onSign (s : Session) (ethereumPresent : Bool) (w : SignOutcome) : SignEff :=
  if s.hash = "" then ⟨{ s with status := "No hash to sign" }, false⟩
  else if !ethereumPresent then ⟨{ s with status := "MetaMask not found" }, false⟩
  else
    match w with
    | SignOutcome.connectError m =>
        ⟨{ s with status := "Error: " ++ m }, true⟩
    | SignOutcome.rejectAfterConnect addr m =>
        ⟨{ s with userAddr := addr, status := "Error: " ++ m }, true⟩
    | SignOutcome.success addr signature =>
        ⟨{ s with userAddr := addr, sig := signature,
                  status := "Signature obtained" }, true⟩

/-- The disabled predicate of the Sign button in the markup:
disabled when the hash is empty or a signature is already stored. -/
def signButtonDisabled (s : Session) : Bool :=
  s.hash == "" || s.sig != ""

/-- A click on the Sign button: a disabled button does not fire its
handler, so onSign runs only when signButtonDisabled is false. -/
def signClick (s : Session) (ethereumPresent : Bool) (w : SignOutcome) : SignEff :=
  if signButtonDisabled s then ⟨s, false⟩ else onSign s ethereumPresent w

/-- Outcome of the fetch inside onSubmit: a 2xx response with a parsed
body, a non-2xx response carrying an optional error field and a status
text, or a thrown transport (or body-parse) error. -/
inductive SubmitOutcome where
  | okResponse (record : RegisterRecord)
  | errResponse (errField : Option String) (statusText : String)
  | networkError (msg : String)
deriving DecidableEq

/-- Result of the onSubmit handler: the next state, whether a fetch was
issued, and whether the Turnstile widget was reset. -/
structure SubmitEff where
  state : Session
  fetched : Bool
  widgetReset : Bool
deriving DecidableEq

/-- onSubmit from App.jsx.  Two local guards return before any fetch;
otherwise registerResult is cleared, the POST is issued, the outcome is
folded into state, and the finally block resets the Turnstile widget and
clears the token in every post-fetch outcome. -/
def onSubmit (s : Session) (o : SubmitOutcome) : SubmitEff :=
  if s.hash = "" ∨ s.sig = "" then
    ⟨{ s with status := "Hash and signature required" }, false, false⟩
  else if s.turnstileToken = "" then
    ⟨{ s with status := "Please complete the CAPTCHA" }, false, false⟩
  else
    let s1 : Session := { s with status := "Sending to server...",
                                 registerResult := none }
    let s2 : Session :=
      match o with
      | SubmitOutcome.okResponse r =>
          { s1 with registerResult := some r,
                    status := "Success! Proof stored on-chain." }
      | SubmitOutcome.errResponse errField statusText =>
          { s1 with status := "Error: " ++ jsOr errField statusText }
      | SubmitOutcome.networkError m =>
          { s1 with status := "Error: " ++ m }
    ⟨{ s2 with turnstileToken := "" }, true, true⟩

/-- Outcome of the fetch inside onVerify. -/
inductive VerifyOutcome where
  | okResponse (record : LookupRecord)
  | errResponse (errField : Option String) (statusText : String)
  | networkError (msg : String)
deriving DecidableEq

/-- Result of the onVerify handler: the next state and whether a fetch
was issued. -/
structure VerifyEff where
  state : Session
  fetched : Bool
deriving DecidableEq

/-- onVerify from App.jsx.  One local guard (empty hash) returns before
any fetch; otherwise verifyResult is cleared, the GET lookup is issued,
and the outcome is folded into verifyResult and the status narration. -/
def onVerify (s : Session) (o : VerifyOutcome) : VerifyEff :=
  if s.hash = "" then ⟨{ s with status := "Please select a file first" }, false⟩
  else
    let s1 : Session := { s with status := "Verifying proof from blockchain...",
                                 verifyResult := none }
    match o with
    | VerifyOutcome.okResponse r =>
        ⟨{ s1 with
            verifyResult := some r
            status := if r.found then "Verification complete: Proof found."
                      else "Verification complete: Proof not found." }, true⟩
    | VerifyOutcome.errResponse errField statusText =>
        ⟨{ s1 with status := "Server error: " ++ jsOr errField statusText }, true⟩
    | VerifyOutcome.networkError m =>
        ⟨{ s1 with status := "Network error: " ++ m }, true⟩

/-- The onClick handler of the clear-file button in the styled variant.
Its two state updates clear selectedFileName and hash; no other state
slot is touched.  (Its third statement assigns to a DOM input element
through a ref that the styled component never declares, which raises a
runtime ReferenceError after both state updates have been queued; that
statement is outside the React state modelled here.) -/
def clearFileClick (t : StyledSession) : StyledSession :=
  { t with selectedFileName := "", hash := "" }

/-- C9: buildSignedMessage is a pure total function returning exactly the
fixed template with the fingerprint embedded verbatim; determinism on
equal inputs is immediate from it being a function satisfying this
equation. -/
theorem buildSignedMessage_spec (f : String) :
    buildSignedMessage f = "Proof Insight: register file hash " ++ f := rfl

/-- C10: in the styled variant, the clear-file button handler clears only
selectedFileName and hash; sig, userAddr, turnstileToken, registerResult
and verifyResult are unchanged, so a stored signature survives while the
fingerprint is empty. -/
theorem clearFileClick_frame (t : StyledSession) :
    (clearFileClick t).selectedFileName = "" ∧
    (clearFileClick t).hash = "" ∧
    (clearFileClick t).sig = t.sig ∧
    (clearFileClick t).userAddr = t.userAddr ∧
    (clearFileClick t).turnstileToken = t.turnstileToken ∧
    (clearFileClick t).registerResult = t.registerResult ∧
    (clearFileClick t).verifyResult = t.verifyResult ∧
    (clearFileClick t).dragActive = t.dragActive := by
  simp [clearFileClick]

/-- C7: onVerify never changes the Submit-path state: hash, sig,
userAddr, turnstileToken and registerResult are preserved in every
outcome (guard failure, found, not found, service error, network
error); only verifyResult and status may change. -/
theorem onVerify_frame (s : Session) (o : VerifyOutcome) :
    (onVerify s o).state.hash = s.hash ∧
    (onVerify s o).state.sig = s.sig ∧
    (onVerify s o).state.userAddr = s.userAddr ∧
    (onVerify s o).state.turnstileToken = s.turnstileToken ∧
    (onVerify s o).state.registerResult = s.registerResult := by
  by_cases h : s.hash = ""
  · simp [onVerify, h]
  · cases o <;> simp [onVerify, h]

/-- C1 counterexample: the claim says onFileChange clears signerAddress,
but at this concrete state the address survives file selection. -/
theorem onFileChange_retains_signerAddress :
    (onFileChange
      ⟨"0xoldhash", "0xoldsig", "0xaddr", "ok", "tok",
        some ⟨"0xtx", 7⟩, some ⟨true, some "0xowner", some 5⟩⟩
      true (Except.ok "0xnewhash")).userAddr = "0xaddr" ∧
    "0xaddr" ≠ "" := by
  exact ⟨rfl, by decide⟩

/-- C1 amended: onFileChange (both variants) clears signature,
registrationRecord and lookupRecord, and resets the fingerprint (empty
when no file or on hashing failure, the freshly computed digest on
success), but it leaves signerAddress unchanged. -/
theorem onFileChange_reset_amended (s : Session) (b : Bool)
    (o : Except String String) (t : StyledSession) :
    (onFileChange s b o).sig = "" ∧
    (onFileChange s b o).registerResult = none ∧
    (onFileChange s b o).verifyResult = none ∧
    (onFileChange s b o).userAddr = s.userAddr ∧
    (onFileChange s b o).turnstileToken = s.turnstileToken ∧
    (onFileChange s b o).hash =
      (match b, o with
       | true, Except.ok h => h
       | true, Except.error _ => ""
       | false, _ => "") ∧
    (onFileChangeStyled t none o).sig = "" ∧
    (onFileChangeStyled t none o).hash = "" ∧
    (onFileChangeStyled t none o).userAddr = t.userAddr := by
  cases b <;> cases o <;> simp [onFileChange, onFileChangeStyled]

/-- C2 counterexample: at this concrete state the wallet connects, the
user rejects the signature, and afterwards signerAddress is non-empty
while signature is empty: the claimed invariant fails and Scenario D is
violated. -/
theorem onSign_failure_sets_signerAddress :
    (onSign ⟨"0xhash", "", "", "", "", none, none⟩ true
        (SignOutcome.rejectAfterConnect "0xaddr" "user rejected signing")).state.userAddr ≠ "" ∧
    (onSign ⟨"0xhash", "", "", "", "", none, none⟩ true
        (SignOutcome.rejectAfterConnect "0xaddr" "user rejected signing")).state.sig = "" := by
  decide

/-- C2 amended: when onSign fails after the wallet has connected (the
signer rejects or errors on signMessage), signature is unchanged but
signerAddress is overwritten with the connected address, because
setUserAddr runs before signMessage; so signature and signerAddress are
not set together and the claimed invariant is not preserved by onSign. -/
theorem onSign_reject_amended (s : Session) (addr m : String)
    (h : s.hash ≠ "") :
    (onSign s true (SignOutcome.rejectAfterConnect addr m)).state.sig = s.sig ∧
    (onSign s true (SignOutcome.rejectAfterConnect addr m)).state.userAddr = addr ∧
    (onSign s true (SignOutcome.rejectAfterConnect addr m)).state.status = "Error: " ++ m ∧
    (onSign s true (SignOutcome.rejectAfterConnect addr m)).state.hash = s.hash ∧
    (onSign s true (SignOutcome.rejectAfterConnect addr m)).walletContacted = true := by
  simp [onSign, h]

/-- C2 amended, witness at a concrete state. -/
theorem onSign_reject_amended_witness :
    (onSign ⟨"0xhash", "", "0xold", "", "", none, none⟩ true
        (SignOutcome.rejectAfterConnect "0xaddr" "denied")).state.sig = "" ∧
    (onSign ⟨"0xhash", "", "0xold", "", "", none, none⟩ true
        (SignOutcome.rejectAfterConnect "0xaddr" "denied")).state.userAddr = "0xaddr" ∧
    (onSign ⟨"0xhash", "", "0xold", "", "", none, none⟩ true
        (SignOutcome.rejectAfterConnect "0xaddr" "denied")).state.status = "Error: denied" ∧
    (onSign ⟨"0xhash", "", "0xold", "", "", none, none⟩ true
        (SignOutcome.rejectAfterConnect "0xaddr" "denied")).state.hash = "0xhash" ∧
    (onSign ⟨"0xhash", "", "0xold", "", "", none, none⟩ true
        (SignOutcome.rejectAfterConnect "0xaddr" "denied")).walletContacted = true :=
  onSign_reject_amended ⟨"0xhash", "", "0xold", "", "", none, none⟩ "0xaddr" "denied"
    (by decide)

/-- C3 counterexample: with a signature already stored for the current
hash, a direct invocation of onSign still contacts the wallet, requests
a new signature and overwrites the stored one: onSign itself has no
idempotent guard. -/
theorem onSign_no_duplicate_guard :
    (onSign ⟨"0xhash", "0xoldsig", "0xaddr", "", "", none, none⟩ true
        (SignOutcome.success "0xaddr2" "0xnewsig")).walletContacted = true ∧
    (onSign ⟨"0xhash", "0xoldsig", "0xaddr", "", "", none, none⟩ true
        (SignOutcome.success "0xaddr2" "0xnewsig")).state.sig = "0xnewsig" ∧
    (onSign ⟨"0xhash", "0xoldsig", "0xaddr", "", "", none, none⟩ true
        (SignOutcome.success "0xaddr2" "0xnewsig")).state.sig ≠ "0xoldsig" := by
  decide

/-- C3 amended: the duplicate-sign refusal is enforced only by the Sign
button disabled predicate (disabled whenever hash is empty or sig is
non-empty), not inside onSign; a click while a signature is stored fires
nothing: the wallet is not contacted and the state is unchanged. -/
theorem signClick_refuses_duplicate (s : Session) (eth : Bool)
    (w : SignOutcome) (h : s.sig ≠ "") :
    signClick s eth w = ⟨s, false⟩ := by
  have hd : signButtonDisabled s = true := by
    simp [signButtonDisabled, h]
  simp [signClick, hd]

/-- C3 amended, witness at a concrete state. -/
theorem signClick_refuses_duplicate_witness :
    signClick ⟨"0xhash", "0xsig", "0xaddr", "", "", none, none⟩ true
        (SignOutcome.success "0xaddr2" "0xnewsig")
      = ⟨⟨"0xhash", "0xsig", "0xaddr", "", "", none, none⟩, false⟩ :=
  signClick_refuses_duplicate ⟨"0xhash", "0xsig", "0xaddr", "", "", none, none⟩
    true (SignOutcome.success "0xaddr2" "0xnewsig") (by decide)

/-- C4: when hash, sig or turnstileToken is empty, onSubmit returns at a
local guard: no fetch is issued, registerResult (and every other slot
except status) is unchanged, and status narrates the precondition
failure. -/
theorem onSubmit_precondition_guard (s : Session) (o : SubmitOutcome)
    (h : s.hash = "" ∨ s.sig = "" ∨ s.turnstileToken = "") :
    (onSubmit s o).fetched = false ∧
    (onSubmit s o).state.registerResult = s.registerResult ∧
    (onSubmit s o).state.turnstileToken = s.turnstileToken ∧
    (onSubmit s o).state.hash = s.hash ∧
    (onSubmit s o).state.sig = s.sig ∧
    (onSubmit s o).state.userAddr = s.userAddr ∧
    (onSubmit s o).state.verifyResult = s.verifyResult ∧
    ((onSubmit s o).state.status = "Hash and signature required" ∨
     (onSubmit s o).state.status = "Please complete the CAPTCHA") := by
  by_cases h1 : s.hash = "" ∨ s.sig = ""
  · simp [onSubmit, h1]
  · have h3 : s.turnstileToken = "" := by tauto
    simp [onSubmit, h1, h3]

/-- C4, witness at a concrete state with an empty token. -/
theorem onSubmit_precondition_guard_witness :
    (onSubmit ⟨"0xhash", "0xsig", "0xaddr", "", "", none, none⟩
        (SubmitOutcome.okResponse ⟨"0xtx", 7⟩)).fetched = false ∧
    (onSubmit ⟨"0xhash", "0xsig", "0xaddr", "", "", none, none⟩
        (SubmitOutcome.okResponse ⟨"0xtx", 7⟩)).state.registerResult = none ∧
    (onSubmit ⟨"0xhash", "0xsig", "0xaddr", "", "", none, none⟩
        (SubmitOutcome.okResponse ⟨"0xtx", 7⟩)).state.turnstileToken = "" ∧
    (onSubmit ⟨"0xhash", "0xsig", "0xaddr", "", "", none, none⟩
        (SubmitOutcome.okResponse ⟨"0xtx", 7⟩)).state.hash = "0xhash" ∧
    (onSubmit ⟨"0xhash", "0xsig", "0xaddr", "", "", none, none⟩
        (SubmitOutcome.okResponse ⟨"0xtx", 7⟩)).state.sig = "0xsig" ∧
    (onSubmit ⟨"0xhash", "0xsig", "0xaddr", "", "", none, none⟩
        (SubmitOutcome.okResponse ⟨"0xtx", 7⟩)).state.userAddr = "0xaddr" ∧
    (onSubmit ⟨"0xhash", "0xsig", "0xaddr", "", "", none, none⟩
        (SubmitOutcome.okResponse ⟨"0xtx", 7⟩)).state.verifyResult = none ∧
    ((onSubmit ⟨"0xhash", "0xsig", "0xaddr", "", "", none, none⟩
        (SubmitOutcome.okResponse ⟨"0xtx", 7⟩)).state.status
        = "Hash and signature required" ∨
     (onSubmit ⟨"0xhash", "0xsig", "0xaddr", "", "", none, none⟩
        (SubmitOutcome.okResponse ⟨"0xtx", 7⟩)).state.status
        = "Please complete the CAPTCHA") :=
  onSubmit_precondition_guard ⟨"0xhash", "0xsig", "0xaddr", "", "", none, none⟩
    (SubmitOutcome.okResponse ⟨"0xtx", 7⟩) (Or.inr (Or.inr rfl))

/-- C5: after any Submit attempt that passes the local guards (success,
service error or network error alike), the finally block resets the
Turnstile widget and clears the token; a subsequent Submit with the
resulting state hits the token guard and issues no fetch, so the same
token is never sent twice. -/
theorem onSubmit_invalidates_token (s : Session) (o o2 : SubmitOutcome)
    (h1 : s.hash ≠ "") (h2 : s.sig ≠ "") (h3 : s.turnstileToken ≠ "") :
    (onSubmit s o).state.turnstileToken = "" ∧
    (onSubmit s o).widgetReset = true ∧
    (onSubmit (onSubmit s o).state o2).fetched = false := by
  cases o <;> simp [onSubmit, h1, h2, h3]

/-- C5, witness at a concrete state across a network error. -/
theorem onSubmit_invalidates_token_witness :
    (onSubmit ⟨"0xhash", "0xsig", "0xaddr", "", "tok", none, none⟩
        (SubmitOutcome.networkError "offline")).state.turnstileToken = "" ∧
    (onSubmit ⟨"0xhash", "0xsig", "0xaddr", "", "tok", none, none⟩
        (SubmitOutcome.networkError "offline")).widgetReset = true ∧
    (onSubmit (onSubmit ⟨"0xhash", "0xsig", "0xaddr", "", "tok", none, none⟩
        (SubmitOutcome.networkError "offline")).state
        (SubmitOutcome.okResponse ⟨"0xtx", 7⟩)).fetched = false :=
  onSubmit_invalidates_token ⟨"0xhash", "0xsig", "0xaddr", "", "tok", none, none⟩
    (SubmitOutcome.networkError "offline") (SubmitOutcome.okResponse ⟨"0xtx", 7⟩)
    (by decide) (by decide) (by decide)

/-- C6: on a non-2xx response the service error message (the body error
field when present and non-empty, else the HTTP status text) is surfaced
in the status narration, registrationRecord stays absent, and the token
is still invalidated. -/
theorem onSubmit_service_error (s : Session) (e : Option String) (st : String)
    (h1 : s.hash ≠ "") (h2 : s.sig ≠ "") (h3 : s.turnstileToken ≠ "")
    (h4 : s.registerResult = none) :
    (onSubmit s (SubmitOutcome.errResponse e st)).state.status
      = "Error: " ++ jsOr e st ∧
    (onSubmit s (SubmitOutcome.errResponse e st)).state.registerResult
      = s.registerResult ∧
    (onSubmit s (SubmitOutcome.errResponse e st)).state.turnstileToken = "" ∧
    (onSubmit s (SubmitOutcome.errResponse e st)).fetched = true := by
  simp [onSubmit, h1, h2, h3, h4]

/-- C6, witness: an HTTP 500 carrying a rate-limited error body. -/
theorem onSubmit_service_error_witness :
    (onSubmit ⟨"0xhash", "0xsig", "0xaddr", "", "tok", none, none⟩
        (SubmitOutcome.errResponse (some "rate limited") "Internal Server Error")).state.status
      = "Error: rate limited" ∧
    (onSubmit ⟨"0xhash", "0xsig", "0xaddr", "", "tok", none, none⟩
        (SubmitOutcome.errResponse (some "rate limited") "Internal Server Error")).state.registerResult
      = none ∧
    (onSubmit ⟨"0xhash", "0xsig", "0xaddr", "", "tok", none, none⟩
        (SubmitOutcome.errResponse (some "rate limited") "Internal Server Error")).state.turnstileToken
      = "" ∧
    (onSubmit ⟨"0xhash", "0xsig", "0xaddr", "", "tok", none, none⟩
        (SubmitOutcome.errResponse (some "rate limited") "Internal Server Error")).fetched
      = true := by
  have h := onSubmit_service_error ⟨"0xhash", "0xsig", "0xaddr", "", "tok", none, none⟩
    (some "rate limited") "Internal Server Error" (by decide) (by decide) (by decide) rfl
  simpa [jsOr] using h

/-- C8: Verify has exactly one precondition: a fetch is issued iff the
hash is non-empty, whatever sig, userAddr or turnstileToken hold; with
an empty hash the handler fails locally, changing only status. -/
theorem onVerify_precondition (s : Session) (o : VerifyOutcome) :
    ((onVerify s o).fetched = (s.hash != "")) ∧
    (s.hash = "" →
      (onVerify s o).state = { s with status := "Please select a file first" }) := by
  by_cases h : s.hash = ""
  · simp [onVerify, h]
  · cases o <;> simp [onVerify, h]

/-- C8, witness: a state with a hash but no signature and no token does
fetch, and a state with no hash fails locally. -/
theorem onVerify_precondition_witness :
    (onVerify ⟨"0xhash", "", "", "", "", none, none⟩
        (VerifyOutcome.okResponse ⟨false, none, none⟩)).fetched = true ∧
    (onVerify ⟨"", "0xsig", "", "", "tok", none, none⟩
        (VerifyOutcome.okResponse ⟨false, none, none⟩)).state
      = ⟨"", "0xsig", "", "Please select a file first", "tok", none, none⟩ := by
  constructor
  · have h := (onVerify_precondition ⟨"0xhash", "", "", "", "", none, none⟩
      (VerifyOutcome.okResponse ⟨false, none, none⟩)).1
    rw [h]; decide
  · have h := (onVerify_precondition ⟨"", "0xsig", "", "", "tok", none, none⟩
      (VerifyOutcome.okResponse ⟨false, none, none⟩)).2 rfl
    rw [h]

end ProofInsight
